import Mathlib

/-!
# Verification of the fsevents wrapper (wrap.go)

Shallow embedding of the fsevents stream wrapper: the native callback
bridge, path-set construction, stream start/stop lifecycle and the
CoreFoundation string decoders, with theorems settling the spec claims.

Machine integers are modelled as `Nat` with explicit `% 2^32` / `% 2^64`
where the Go code uses `uint32` / `uint64`.  Native pointers that may be
null are modelled as `Option`; native calls whose results come from the
OS are oracle parameters; sequences of native calls are recorded as
traces so that call order can be stated.
-/

namespace Fsevents

/-- `eventIDSinceNow = ^uint64(0)` (kFSEventStreamEventIdSinceNow),
from wrap.go line 49. -/
def eventIDSinceNow : Nat := 2 ^ 64 - 1

/-! ## C strings (`cStringToGoString`, wrap.go 158-177)

A C string pointer is `Option (List Nat)`: `none` is the null pointer,
`some bs` is a pointer to the byte sequence `bs` in memory (the bytes
reachable from the pointer; decoding scans them for the first NUL).
Go strings produced by the decoder are byte lists. -/

/-- The scan loop of `cStringToGoString`: the bytes before the first NUL. -/
def takeUntilNul : List Nat → List Nat
  | [] => []
  | b :: bs => if b = 0 then [] else b :: takeUntilNul bs

/-- `cStringToGoString` (wrap.go 158-177): null pointer decodes to the
empty string, otherwise the bytes up to the first NUL.  (The source's
separate `length == 0` early return coincides with the general slice.) -/
def cStringToGoString : Option (List Nat) → List Nat
  | none => []
  | some bs => takeUntilNul bs

/-! ## CF strings (`cfStringToGoString`, wrap.go 208-243)

A `CFStringRef` is `Option CFStringVal`: `none` is the zero reference.
`utf16Len` is what `CFStringGetLength` reports; `utf8Buf` is the buffer
content after `CFStringGetCString` ran (`none` when that call reported
failure, i.e. returned 0). -/

structure CFStringVal where
  utf16Len : Nat
  utf8Buf : Option (List Nat)
deriving Repr, DecidableEq

/-- Index of the first NUL byte in a buffer, if any
(the `for i, b := range buffer` scan of wrap.go 237-241). -/
def findNul : List Nat → Option Nat
  | [] => none
  | b :: bs => if b = 0 then some 0 else (findNul bs).map (· + 1)

/-- `cfStringToGoString` (wrap.go 208-243): empty string on zero ref,
zero UTF-16 length, or conversion failure; otherwise the buffer content
up to the first NUL, falling back to `maxBytes - 1` bytes when no NUL is
found.  The buffer is `maxBytes = utf16Len * 5 + 1` bytes, zero-filled
beyond what the native call wrote. -/
def cfStringToGoString : Option CFStringVal → List Nat
  | none => []
  | some v =>
    if v.utf16Len = 0 then []
    else
      match v.utf8Buf with
      | none => []
      | some buf =>
        let maxBytes := v.utf16Len * 5 + 1
        let buffer := (buf ++ List.replicate maxBytes 0).take maxBytes
        match findNul buffer with
        | some i => buffer.take i
        | none => buffer.take (maxBytes - 1)

/-! ## Events and streams -/

/-- One decoded event (the `Event` struct): path as decoded bytes,
`Flags` a `uint32` word, `ID` a `uint64` identifier. -/
structure Event where
  Path : List Nat
  Flags : Nat
  ID : Nat
deriving Repr, DecidableEq, Inhabited

/-- Modelled from the spec: the `EventStream` struct is declared outside
src/ (only its uses are in wrap.go).  Fields are exactly those wrap.go
reads or writes: configuration (`Flags`, `Resume`, `Latency`, `Device`),
the resumption checkpoint `EventID`, and the native handles `stream` and
`qref` (0 = cleared).  The output channel is modelled by the lists of
batches the callback writes, not stored in the struct. -/
structure EventStream where
  Flags : Nat
  EventID : Nat
  Resume : Bool
  Latency : Nat
  Device : Int
  stream : Nat
  qref : Nat
deriving Repr, DecidableEq

/-! ## The callback bridge (`callback`, wrap.go 254-279)

The registry (`registry.Get`, defined outside src/) is modelled from the
spec as a lookup function from context tokens to streams.  The three
parallel native arrays are given as lists, zipped into per-slot triples
`(path pointer, flag word, identifier)`. -/

/-- The body of the callback's `for` loop (wrap.go 268-276): per slot,
decode the path, build the event from the flag word and identifier, and
set the stream's `EventID` to that slot's identifier. -/
def callbackLoop (es : EventStream) :
    List (Option (List Nat) × Nat × Nat) → EventStream × List Event
  | [] => (es, [])
  | (p, f, id) :: rest =>
    let ev : Event := ⟨cStringToGoString p, f % 2 ^ 32, id % 2 ^ 64⟩
    let r := callbackLoop { es with EventID := id % 2 ^ 64 } rest
    (r.1, ev :: r.2)

/-- Result of one callback invocation: the updated stream (`none` when
the registry lookup missed and nothing was touched), the list of values
written to the output channel, and whether the miss was logged. -/
structure CallbackResult where
  es : Option EventStream
  writes : List (List Event)
  loggedMiss : Bool
deriving Repr, DecidableEq

/-- `callback` (wrap.go 254-279): look up the context token; on a miss,
log and return without decoding or writing.  Otherwise decode all slots
in order, updating `EventID` per slot, and write the whole batch as one
value to the channel (`es.Events <- events`). -/
def callback (reg : Nat → Option EventStream) (info : Nat)
    (paths : List (Option (List Nat))) (flags ids : List Nat) :
    CallbackResult :=
  match reg info with
  | none => ⟨none, [], true⟩
  | some es =>
    let r := callbackLoop es (paths.zip (flags.zip ids))
    ⟨some r.1, [r.2], false⟩

/-! ## Path-set construction (`createPaths`, wrap.go 281-297)

`filepath.Abs` is Go standard-library code, modelled as an oracle
`absFn : String → Option String` (`none` = resolution error, in which
case `filepath.Abs` returns the empty string alongside the error).
A CF string is modelled by its content, a CF array by the list of its
elements' contents. -/

/-- One iteration of the `createPaths` loop: resolve, record the error
if any, and append the (possibly empty) resolved string to the array
unconditionally. -/
def createPathsStep (absFn : String → Option String)
    (acc : List String × List String) (path : String) :
    List String × List String :=
  match absFn path with
  | some p => (acc.1 ++ [p], acc.2)
  | none => (acc.1 ++ [""], acc.2 ++ [path])

/-- `createPaths` (wrap.go 281-297): builds the CF array and returns it
together with the aggregated error (`none` when no path failed,
otherwise the list of failed paths standing for `fmt.Errorf("%q", errs)`). -/
def createPaths (absFn : String → Option String) (paths : List String) :
    List String × Option (List String) :=
  let r := paths.foldl (createPathsStep absFn) ([], [])
  (r.1, if r.2.isEmpty then none else some r.2)

/-! ## Native stream setup and introspection -/

/-- The native stream object as the external collaborator exposes it:
`FSEventStreamCreate` receives the path array, the since-identifier and
the device, and the introspection queries read them back. -/
structure NativeStream where
  pathsWatched : List String
  sinceID : Nat
  device : Int
deriving Repr, DecidableEq

/-- `setupStream` (wrap.go 299-323): build the path array via
`createPaths` (logging, not propagating, its error) and create the
native stream with the given since-identifier and device. -/
def setupStream (absFn : String → Option String) (paths : List String)
    (eventID : Nat) (deviceID : Int) : NativeStream :=
  ⟨(createPaths absFn paths).1, eventID, deviceID⟩

/-- `getStreamRefPaths` (wrap.go 418-428): copy the watched-paths array
back out of the native stream and decode each element.  In the content
model of CF strings the decode is the content itself. -/
def getStreamRefPaths (s : NativeStream) : List String :=
  s.pathsWatched

/-! ## Stream lifecycle (`EventStream.start` wrap.go 325-345,
`stop` wrap.go 359-368)

Native calls are recorded as a trace so call order can be stated; the
refs returned by the native creation calls and the success of
`FSEventStreamStart` are oracle parameters. -/

inductive NativeCall where
  | createStream (device : Int) (since : Nat)
  | queueCreate
  | setDispatchQueue (stream q : Nat)
  | streamStart (stream : Nat)
  | streamStop (stream : Nat)
  | invalidate (stream : Nat)
  | releaseStream (stream : Nat)
  | releaseQueue (q : Nat)
deriving Repr, DecidableEq

/-- The since-identifier resolution at the top of `EventStream.start`
(wrap.go 326-329). -/
def sinceOf (es : EventStream) : Nat :=
  if es.Resume then es.EventID else eventIDSinceNow

/-- `EventStream.start` (wrap.go 325-345): resolve the since-identifier,
create the native stream (storing the ref), create and bind a dispatch
queue (storing its ref), then start delivery.  On start failure,
invalidate, release the stream, release the queue and return an error;
the stored refs are whatever the creation calls returned.  Result: the
updated struct, the native-call trace, and whether an error was
returned. -/
def EventStream.start (es : EventStream) (streamRef queueRef : Nat)
    (startOk : Bool) : EventStream × List NativeCall × Bool :=
  let since := sinceOf es
  let es1 := { es with stream := streamRef, qref := queueRef }
  let setupTrace : List NativeCall :=
    [.createStream es.Device since, .queueCreate,
     .setDispatchQueue streamRef queueRef, .streamStart streamRef]
  if startOk then
    (es1, setupTrace, false)
  else
    (es1,
     setupTrace ++
       [.invalidate streamRef, .releaseStream streamRef,
        .releaseQueue queueRef],
     true)

/-- `stop` (wrap.go 359-368): no native calls when the stream handle is
already cleared; otherwise stop, invalidate, release the stream, release
the queue, in that order.  The function returns no error in either case. -/
def stop (stream qref : Nat) : List NativeCall :=
  if stream = 0 then []
  else
    [.streamStop stream, .invalidate stream, .releaseStream stream,
     .releaseQueue qref]

/-- Modelled from the spec: `EventStream.Stop` is declared outside src/.
Per the spec it "stops delivery, invalidates, releases the stream handle,
releases the dispatch queue, and deregisters", and is an "idempotent
no-op if the native handle is already cleared" — i.e. it runs `stop` on
the current handles and clears the stream handle. -/
def EventStream.Stop (es : EventStream) : EventStream × List NativeCall :=
  ({ es with stream := 0 }, stop es.stream es.qref)

/-- The event built from one native slot (path pointer, flag word,
identifier) — the loop body of wrap.go 268-274 as a function of the slot. -/
def eventOfSlot (s : Option (List Nat) × Nat × Nat) : Event :=
  ⟨cStringToGoString s.1, s.2.1 % 2 ^ 32, s.2.2 % 2 ^ 64⟩

/-! ## Helper lemmas -/

theorem callbackLoop_snd (slots : List (Option (List Nat) × Nat × Nat))
    (es : EventStream) : (callbackLoop es slots).2 = slots.map eventOfSlot := by
  induction slots generalizing es with
  | nil => rfl
  | cons a rest ih =>
    obtain ⟨p, f, id⟩ := a
    simp [callbackLoop, ih, eventOfSlot]

theorem callbackLoop_fst (slots : List (Option (List Nat) × Nat × Nat))
    (es : EventStream) :
    (callbackLoop es slots).1 =
      (match slots.getLast? with
       | none => es
       | some s => { es with EventID := s.2.2 % 2 ^ 64 }) := by
  induction slots generalizing es with
  | nil => rfl
  | cons a rest ih =>
    obtain ⟨p, f, id⟩ := a
    cases rest with
    | nil => simp [callbackLoop]
    | cons b r =>
      have h1 : (callbackLoop es ((p, f, id) :: b :: r)).1 =
          (callbackLoop { es with EventID := id % 2 ^ 64 } (b :: r)).1 := rfl
      rw [h1, ih, List.getLast?_cons_cons]
      cases h : (b :: r).getLast? with
      | none => exact absurd (List.getLast?_eq_none_iff.mp h) (by simp)
      | some s => cases es; rfl

theorem callback_hit (reg : Nat → Option EventStream) (info : Nat)
    (es : EventStream) (paths : List (Option (List Nat))) (flags ids : List Nat)
    (hreg : reg info = some es) :
    callback reg info paths flags ids =
      ⟨some (callbackLoop es (paths.zip (flags.zip ids))).1,
       [(callbackLoop es (paths.zip (flags.zip ids))).2], false⟩ := by
  unfold callback
  rw [hreg]

theorem zip3_length (paths : List (Option (List Nat))) (flags ids : List Nat)
    (hf : flags.length = paths.length) (hi : ids.length = paths.length) :
    (paths.zip (flags.zip ids)).length = paths.length := by
  simp [List.length_zip, hf, hi]

theorem createPaths_foldl (absFn : String → Option String) (paths : List String)
    (acc : List String × List String) :
    paths.foldl (createPathsStep absFn) acc =
      (acc.1 ++ paths.map (fun p => (absFn p).getD ""),
       acc.2 ++ paths.filter (fun p => (absFn p).isNone)) := by
  induction paths generalizing acc with
  | nil => simp
  | cons q rest ih =>
    rw [List.foldl_cons, ih]
    cases h : absFn q with
    | none => simp [createPathsStep, h, List.filter_cons]
    | some p => simp [createPathsStep, h, List.filter_cons]

theorem createPaths_eq (absFn : String → Option String) (paths : List String) :
    createPaths absFn paths =
      (paths.map (fun p => (absFn p).getD ""),
       if (paths.filter (fun p => (absFn p).isNone)).isEmpty then none
       else some (paths.filter (fun p => (absFn p).isNone))) := by
  unfold createPaths
  rw [createPaths_foldl]
  simp

/-! ## Claim theorems -/

/-- C5: when the context token is not found in the registry, the callback
logs the miss and returns without decoding the batch: no channel write, no
stream-state mutation, no error (the function is total). -/
theorem c5_registry_miss (reg : Nat → Option EventStream) (info : Nat)
    (paths : List (Option (List Nat))) (flags ids : List Nat)
    (h : reg info = none) :
    callback reg info paths flags ids = ⟨none, [], true⟩ := by
  unfold callback
  rw [h]

theorem c5_witness :
    callback (fun _ => none) 0 [some [97]] [1] [2] = ⟨none, [], true⟩ :=
  c5_registry_miss (fun _ => none) 0 [some [97]] [1] [2] rfl

/-- C6: the since-identifier passed to native stream creation is the
stored eventID when Resume is set, else the eventIDSinceNow sentinel,
which is exactly the 64-bit all-bits-set value 0xFFFFFFFFFFFFFFFF. -/
theorem c6_since_identifier (es : EventStream) (r q : Nat) (ok : Bool) :
    ((es.start r q ok).2.1).head? =
      some (.createStream es.Device
        (if es.Resume then es.EventID else eventIDSinceNow)) ∧
    eventIDSinceNow = 0xFFFFFFFFFFFFFFFF := by
  constructor
  · cases ok <;> rfl
  · decide

/-- C7: stop is idempotent — with the native handle already cleared it
performs no native calls and returns no error, and a second Stop right
after a first one performs no native calls, so no handle or queue is
released twice. -/
theorem c7_stop_idempotent (es : EventStream) :
    stop 0 es.qref = [] ∧
    (EventStream.Stop es).1.stream = 0 ∧
    (EventStream.Stop (EventStream.Stop es).1).2 = [] :=
  ⟨rfl, rfl, rfl⟩

/-- C10: cfStringToGoString is total and never signals an error: it
returns the empty string on a zero reference, on a zero UTF-16 length,
and on native conversion failure — the three cases are indistinguishable
to the caller. -/
theorem c10_cfString_total (v : CFStringVal) :
    cfStringToGoString none = [] ∧
    (v.utf16Len = 0 → cfStringToGoString (some v) = []) ∧
    (v.utf8Buf = none → cfStringToGoString (some v) = []) := by
  refine ⟨rfl, fun h => ?_, fun h => ?_⟩
  · simp [cfStringToGoString, h]
  · simp [cfStringToGoString, h]

theorem c10_witness :
    cfStringToGoString none = [] ∧
    cfStringToGoString (some ⟨0, some [65]⟩) = [] ∧
    cfStringToGoString (some ⟨2, none⟩) = [] :=
  ⟨(c10_cfString_total ⟨0, some [65]⟩).1,
   (c10_cfString_total ⟨0, some [65]⟩).2.1 rfl,
   (c10_cfString_total ⟨2, none⟩).2.2 rfl⟩

/-- C1 counterexample: with ids delivered in order [5, 3], the callback
leaves eventID = 3 (the last identifier), while the highest identifier in
the batch is 5 — so "eventID equals the highest identifier" is false as
stated. -/
theorem c1_counterexample :
    ((callback (fun i => if i = 1 then some ⟨0, 0, false, 0, 0, 0, 0⟩ else none)
        1 [some [97], some [98]] [0, 0] [5, 3]).es.map EventStream.EventID)
      = some 3 ∧
    (5 ∈ [5, 3] ∧ ∀ x ∈ [(5 : Nat), 3], x ≤ 5) ∧ (3 : Nat) ≠ 5 := by
  refine ⟨?_, by decide, by decide⟩
  rw [callback_hit _ 1 ⟨0, 0, false, 0, 0, 0, 0⟩ _ _ _ rfl]
  rfl

/-- C1 (amended): after the callback processes a non-empty batch for a
registered stream, the stream's eventID equals the LAST identifier in
native delivery order (reduced mod 2^64) — which coincides with the
highest only when identifiers are nondecreasing within the batch. -/
theorem c1_eventID_last (reg : Nat → Option EventStream) (info : Nat)
    (es : EventStream) (paths : List (Option (List Nat))) (flags ids : List Nat)
    (hreg : reg info = some es)
    (hne : paths.zip (flags.zip ids) ≠ []) :
    (callback reg info paths flags ids).es.map EventStream.EventID =
      ((paths.zip (flags.zip ids)).getLast?).map (fun s => s.2.2 % 2 ^ 64) := by
  rw [callback_hit reg info es paths flags ids hreg]
  show some (callbackLoop es (paths.zip (flags.zip ids))).1.EventID = _
  rw [callbackLoop_fst]
  rw [List.getLast?_eq_getLast _ hne]
  rfl

theorem c1_witness :
    (callback (fun i => if i = 2 then some ⟨0, 0, false, 0, 0, 0, 0⟩ else none)
        2 [some [97], some [98]] [0, 0] [5, 3]).es.map EventStream.EventID =
      (([some [97], some [98]].zip ([0, 0].zip [5, 3])).getLast?).map
        (fun s => s.2.2 % 2 ^ 64) :=
  c1_eventID_last (fun i => if i = 2 then some ⟨0, 0, false, 0, 0, 0, 0⟩ else none)
    2 ⟨0, 0, false, 0, 0, 0, 0⟩ [some [97], some [98]] [0, 0] [5, 3] rfl
    (by decide)

/-- C4: for a callback invocation that finds its stream, exactly one value
is written to the output channel; it is the batch of all slots in native
array order, of the same length as the path array, and its i-th event
pairs the decoded i-th path with the i-th flag word and i-th identifier. -/
theorem c4_single_batch (reg : Nat → Option EventStream) (info : Nat)
    (es : EventStream) (paths : List (Option (List Nat))) (flags ids : List Nat)
    (hreg : reg info = some es)
    (hf : flags.length = paths.length) (hi : ids.length = paths.length) :
    (callback reg info paths flags ids).writes =
      [(paths.zip (flags.zip ids)).map eventOfSlot] ∧
    ((paths.zip (flags.zip ids)).map eventOfSlot).length = paths.length ∧
    ∀ i, i < paths.length →
      ((paths.zip (flags.zip ids)).map eventOfSlot).getD i default =
        ⟨cStringToGoString (paths.getD i none), flags.getD i 0 % 2 ^ 32,
         ids.getD i 0 % 2 ^ 64⟩ := by
  have hlen : ((paths.zip (flags.zip ids)).map eventOfSlot).length =
      paths.length := by
    simp [zip3_length paths flags ids hf hi]
  refine ⟨?_, hlen, fun i hip => ?_⟩
  · rw [callback_hit reg info es paths flags ids hreg]
    show [(callbackLoop es (paths.zip (flags.zip ids))).2] = _
    rw [callbackLoop_snd]
  · have hiz : i < ((paths.zip (flags.zip ids)).map eventOfSlot).length := by
      rw [hlen]; exact hip
    rw [List.getD_eq_getElem _ _ hiz, List.getD_eq_getElem _ _ hip,
      List.getD_eq_getElem _ _ (hf ▸ hip), List.getD_eq_getElem _ _ (hi ▸ hip)]
    simp [List.getElem_map, List.getElem_zip, eventOfSlot]

theorem c4_witness :
    (callback (fun i => if i = 3 then some ⟨0, 0, false, 0, 0, 0, 0⟩ else none)
        3 [some [97]] [2] [7]).writes = [([some [97]].zip ([2].zip [7])).map eventOfSlot] ∧
    (([some [97]].zip ([2].zip [7])).map eventOfSlot).length = [some [97]].length ∧
    ∀ i, i < [some [97]].length →
      (([some [97]].zip ([2].zip [7])).map eventOfSlot).getD i default =
        ⟨cStringToGoString ([some [97]].getD i none), [2].getD i 0 % 2 ^ 32,
         [7].getD i 0 % 2 ^ 64⟩ :=
  c4_single_batch (fun i => if i = 3 then some ⟨0, 0, false, 0, 0, 0, 0⟩ else none)
    3 ⟨0, 0, false, 0, 0, 0, 0⟩ [some [97]] [2] [7] rfl rfl rfl

/-- C9: a slot whose native path pointer is null decodes to an event with
the empty string as its path, while the batch is still delivered whole as
one channel write of the full length — one malformed field never drops
the rest of the batch. -/
theorem c9_null_path_slot (reg : Nat → Option EventStream) (info : Nat)
    (es : EventStream) (paths : List (Option (List Nat))) (flags ids : List Nat)
    (i : Nat) (hreg : reg info = some es)
    (hf : flags.length = paths.length) (hi : ids.length = paths.length)
    (hip : i < paths.length) (hnull : paths.getD i none = none) :
    (callback reg info paths flags ids).writes =
      [(paths.zip (flags.zip ids)).map eventOfSlot] ∧
    ((paths.zip (flags.zip ids)).map eventOfSlot).length = paths.length ∧
    (((paths.zip (flags.zip ids)).map eventOfSlot).getD i default).Path = [] := by
  have hlen : ((paths.zip (flags.zip ids)).map eventOfSlot).length =
      paths.length := by
    simp [zip3_length paths flags ids hf hi]
  refine ⟨?_, hlen, ?_⟩
  · rw [callback_hit reg info es paths flags ids hreg]
    show [(callbackLoop es (paths.zip (flags.zip ids))).2] = _
    rw [callbackLoop_snd]
  · have hiz : i < ((paths.zip (flags.zip ids)).map eventOfSlot).length := by
      rw [hlen]; exact hip
    rw [List.getD_eq_getElem _ _ hiz]
    rw [List.getD_eq_getElem _ _ hip] at hnull
    simp [List.getElem_map, List.getElem_zip, eventOfSlot, hnull,
      cStringToGoString]

theorem c9_witness :
    (callback (fun i => if i = 4 then some ⟨0, 0, false, 0, 0, 0, 0⟩ else none)
        4 [none, some [98]] [1, 2] [3, 4]).writes =
      [([none, some [98]].zip ([1, 2].zip [3, 4])).map eventOfSlot] ∧
    (([none, some [98]].zip ([1, 2].zip [3, 4])).map eventOfSlot).length =
      [none, some [98]].length ∧
    ((([none, some [98]].zip ([1, 2].zip [3, 4])).map eventOfSlot).getD 0
      default).Path = [] :=
  c9_null_path_slot (fun i => if i = 4 then some ⟨0, 0, false, 0, 0, 0, 0⟩ else none)
    4 ⟨0, 0, false, 0, 0, 0, 0⟩ [none, some [98]] [1, 2] [3, 4] 0 rfl rfl rfl
    (by decide) rfl

/-- C2 counterexample: with "/a" resolving and "b" failing to resolve,
the constructed array is ["/a", ""] — the failed path is NOT omitted (an
empty-string entry is appended for it), so the array differs from the
list of successfully resolved paths ["/a"]; the aggregated error naming
the failed path is returned. -/
theorem c2_counterexample :
    (createPaths (fun s => if s = "/a" then some "/a" else none)
      ["/a", "b"]).1 = ["/a", ""] ∧
    (["/a", ""] : List String) ≠ ["/a"] ∧
    (createPaths (fun s => if s = "/a" then some "/a" else none)
      ["/a", "b"]).2 = some ["b"] := by
  refine ⟨?_, by decide, ?_⟩ <;> rfl

/-- C2 (amended): when some paths fail to resolve, createPaths still
returns non-fatally: the array has one entry per input path — each
failed path contributes the empty string returned by the resolver rather
than being omitted — and the aggregated error lists exactly the failed
paths in order. -/
theorem c2_failed_paths_kept (absFn : String → Option String)
    (paths : List String) (hfail : ∃ p ∈ paths, absFn p = none) :
    (createPaths absFn paths).1 = paths.map (fun p => (absFn p).getD "") ∧
    (createPaths absFn paths).1.length = paths.length ∧
    (createPaths absFn paths).2 =
      some (paths.filter (fun p => (absFn p).isNone)) := by
  obtain ⟨p, hp, hnone⟩ := hfail
  have hmem : p ∈ paths.filter (fun p => (absFn p).isNone) :=
    List.mem_filter.2 ⟨hp, by simp [hnone]⟩
  have hne : (paths.filter (fun p => (absFn p).isNone)).isEmpty = false := by
    rw [List.isEmpty_eq_false]
    intro hnil
    rw [hnil] at hmem
    exact absurd hmem (List.not_mem_nil p)
  rw [createPaths_eq, hne]
  simp

theorem c2_witness :
    (createPaths (fun _ => none) ["b"]).1 =
      ["b"].map (fun p => ((fun _ => (none : Option String)) p).getD "") ∧
    (createPaths (fun _ => none) ["b"]).1.length = ["b"].length ∧
    (createPaths (fun _ => none) ["b"]).2 =
      some (["b"].filter (fun p => ((fun _ => (none : Option String)) p).isNone)) :=
  c2_failed_paths_kept (fun _ => none) ["b"] ⟨"b", by simp, rfl⟩

/-- C3 counterexample: starting from a pre-start stream (handle fields 0)
with the native creation returning refs 7 and 9 and the native start
failing, start does return an error, but the struct keeps stream = 7 and
qref = 9 — the released handles — so the EventStream is NOT left in its
pre-start state. -/
theorem c3_counterexample :
    ((⟨0, 0, false, 0, 0, 0, 0⟩ : EventStream).start 7 9 false).2.2 = true ∧
    (⟨0, 0, false, 0, 0, 0, 0⟩ : EventStream).stream = 0 ∧
    ((⟨0, 0, false, 0, 0, 0, 0⟩ : EventStream).start 7 9 false).1.stream = 7 ∧
    ((⟨0, 0, false, 0, 0, 0, 0⟩ : EventStream).start 7 9 false).1.qref = 9 := by
  refine ⟨rfl, rfl, rfl, rfl⟩

/-- C3 (amended): on native start failure, start unwinds with
invalidate-stream, release-stream, release-queue in that order right
after the setup calls, and returns a start-failure error; however the
stream and qref fields retain the released native refs — the struct is
not restored to its pre-start state. -/
theorem c3_unwind_order (es : EventStream) (r q : Nat) :
    (es.start r q false).2.1 =
      [.createStream es.Device (sinceOf es), .queueCreate,
       .setDispatchQueue r q, .streamStart r, .invalidate r,
       .releaseStream r, .releaseQueue q] ∧
    (es.start r q false).2.2 = true ∧
    (es.start r q false).1 = { es with stream := r, qref := q } :=
  ⟨rfl, rfl, rfl⟩

/-- C8 counterexample: the relative path "a" is valid (it resolves, to
"/w/a"), yet reading the watched paths back from the created stream
yields ["/w/a"], not the input ["a"] — the round-trip returns the
resolved forms, not necessarily the same paths. -/
theorem c8_counterexample :
    (fun s => if s = "a" then some "/w/a" else none) "a" = some "/w/a" ∧
    getStreamRefPaths
      (setupStream (fun s => if s = "a" then some "/w/a" else none)
        ["a"] 0 0) = ["/w/a"] ∧
    (["/w/a"] : List String) ≠ ["a"] := by
  refine ⟨rfl, rfl, by decide⟩

/-- C8 (amended): for a non-empty list of paths that all resolve, the
array built by createPaths has one entry per input path, and reading the
paths back through the native path-listing query yields the RESOLVED
forms of the inputs in order; that equals the inputs exactly when each
path already resolves to itself. -/
theorem c8_roundtrip (absFn : String → Option String) (paths : List String)
    (eventID : Nat) (dev : Int) (hne : paths ≠ [])
    (hvalid : ∀ p ∈ paths, (absFn p).isSome) :
    (createPaths absFn paths).1.length = paths.length ∧
    getStreamRefPaths (setupStream absFn paths eventID dev) =
      paths.map (fun p => (absFn p).getD "") ∧
    ((∀ p ∈ paths, absFn p = some p) →
      getStreamRefPaths (setupStream absFn paths eventID dev) = paths) := by
  have harr : getStreamRefPaths (setupStream absFn paths eventID dev) =
      paths.map (fun p => (absFn p).getD "") := by
    show (createPaths absFn paths).1 = _
    rw [createPaths_eq]
  refine ⟨?_, harr, fun hid => ?_⟩
  · rw [createPaths_eq]
    simp
  · rw [harr]
    have : ∀ p ∈ paths, (absFn p).getD "" = p := fun p hp => by
      rw [hid p hp]
      rfl
    rw [List.map_congr_left this]
    exact List.map_id paths

theorem c8_witness :
    (createPaths some ["/a", "/b"]).1.length = (["/a", "/b"] : List String).length ∧
    getStreamRefPaths (setupStream some ["/a", "/b"] 0 0) =
      ["/a", "/b"].map (fun p => (some p).getD "") ∧
    ((∀ p ∈ (["/a", "/b"] : List String), some p = some p) →
      getStreamRefPaths (setupStream some ["/a", "/b"] 0 0) = ["/a", "/b"]) :=
  c8_roundtrip some ["/a", "/b"] 0 0 (by simp)
    (fun p _ => rfl)

end Fsevents
